import Mathlib

/-
Verification development for the IEAP training launcher
(`src/train/train.py`).  The script is pure orchestration: it reads a
YAML config named by the environment variable XFL_CONFIG, picks a rank
from LOCAL_RANK, optionally initializes wandb, selects a dataset adapter
by the string tag `train.dataset.type`, builds a dataloader, the model
wrapper, the Lightning trainer, persists a copy of the config on the
primary process and calls `trainer.fit`.

The embedding below models the script's observable behaviour as a trace
of events plus an optional terminating error.  YAML values are modelled
by the inductive `Value`; Python dict lookups by `Value.get?`; the
filesystem and environment by explicit functions.  Python floats that
occur in the source (the literal 0.5 and 1.0) are exactly representable
and modelled as rationals.
-/

namespace IEAP

/-- A YAML / Python value as it appears in the parsed config document. -/
inductive Value where
  | null
  | bool (b : Bool)
  | int (n : Int)
  | rat (q : Rat)
  | str (s : String)
  | list (xs : List Value)
  | dict (fields : List (String × Value))

/-- Lookup of a key in an association list of config fields. -/
def lookupField : List (String × Value) → String → Option Value
  | [], _ => none
  | (k, v) :: rest, key => if k = key then some v else lookupField rest key

/-- Python `d[key]` on a mapping: `some` the value, `none` when the key is
absent or the value is not a mapping (both raise in Python). -/
def Value.get? (v : Value) (key : String) : Option Value :=
  match v with
  | .dict fields => lookupField fields key
  | _ => none

/-- Python `d.get(key, default)`. -/
def Value.getD (v : Value) (key : String) (d : Value) : Value :=
  (v.get? key).getD d

/-- Whether the value is Python `None` (YAML null). -/
def Value.isNull : Value → Bool
  | .null => true
  | _ => false

/-- The string a value renders to inside an f-string; only the string and
integer cases are ever exercised by the script (`save_path`). -/
def strOf : Value → String
  | .str s => s
  | .int n => toString n
  | .bool b => if b then "True" else "False"
  | .rat q => toString q
  | .null => "None"
  | .list _ => "object"
  | .dict _ => "object"

/-- The exceptions the script can die with. -/
inductive RunError where
  | assertXflConfigUnset
  | fileNotFoundError
  | lookupError
  | notImplementedError
  | fileExistsError
deriving Repr

/-- A process environment: variable name to optional value. -/
def Env : Type := String → Option String

/-- Decimal digits to a number; `none` on an empty or non-digit string
(Python `int` raises ValueError there). -/
def digitsToNat? (cs : List Char) : Option Nat :=
  match cs with
  | [] => none
  | _ =>
    cs.foldl
      (fun acc c =>
        match acc with
        | none => none
        | some n => if c.isDigit then some (n * 10 + (c.toNat - 48)) else none)
      (some 0)

/-- Python `int(s)` on a decimal literal: surrounding whitespace stripped,
one optional sign, then digits; `none` models the ValueError raised
otherwise. -/
def pyIntOfString? (s : String) : Option Int :=
  let cs := s.toList.dropWhile (fun c => c.isWhitespace)
  let cs := ((cs.reverse.dropWhile (fun c => c.isWhitespace)).reverse)
  match cs with
  | [] => none
  | c :: rest =>
    if c = '-' then (digitsToNat? rest).map (fun n => -(n : Int))
    else if c = '+' then (digitsToNat? rest).map (fun n => (n : Int))
    else (digitsToNat? cs).map (fun n => (n : Int))

/-- The function `get_rank` (train.py:68-73): `int(os.environ.get("LOCAL_RANK"))` under a
bare `except` that turns any failure (unset variable, unparseable string)
into rank 0. -/
def get_rank (env : Env) : Int :=
  match env "LOCAL_RANK" with
  | none => 0
  | some s => (pyIntOfString? s).getD 0

/-- The function `get_config` (train.py:76-81): asserts XFL_CONFIG is set, then parses
the YAML file it names.  `fsYaml` maps a path to the parsed document of a
readable YAML file at that path. -/
def get_config (env : Env) (fsYaml : String → Option Value) : Except RunError Value :=
  match env "XFL_CONFIG" with
  | none => .error .assertXflConfigUnset
  | some p =>
    match fsYaml p with
    | none => .error .fileNotFoundError
    | some v => .ok v

/-! The local scene dataset (train.py:25-65) -/

/-- One record of the raw tabular dataset: the `imageA`, `prompt` and
`imageB` columns of a CSV row.  (The `pd.Series` duplicate-column guard in
`__getitem__` collapses to the identity on single-valued rows, which is
what this model stores.) -/
structure CsvRow where
  imageA : String
  prompt : String
  imageB : String

/-- The torchvision transform pipeline used by the script; only
`Resize((600, 600))` is active (train.py:62-65). -/
inductive ImgTransform where
  | resize (width height : Nat)

/-- The module-level `transform` value: resize to 600 x 600. -/
def transform : ImgTransform := ImgTransform.resize 600 600

/-- The class `LocalSubjectsDataset` (train.py:25-34): the parsed CSV rows, the image
directory and the optional transform.  Reading the CSV itself is modelled
at the point of construction in `selectDataset`. -/
structure LocalSubjectsDataset where
  data : List CsvRow
  imageDir : String
  transform : Option ImgTransform

/-- An image as the adapter sees it: the path it was opened from and the
size it was resized to, if any.  Pixel contents are abstracted. -/
structure LoadedImage where
  path : String
  resizedTo : Option (Nat × Nat)

/-- Python `os.path.join(dir, s)` for the cases arising here. -/
def pathJoin (dir s : String) : String :=
  if s.startsWith "/" then s
  else if dir = "" then s
  else if dir.endsWith "/" then dir ++ s
  else dir ++ "/" ++ s

/-- Applying the optional transform to an opened image. -/
def applyTransform (t : Option ImgTransform) (img : LoadedImage) : LoadedImage :=
  match t with
  | none => img
  | some (ImgTransform.resize w h) =>
    { path := img.path, resizedTo := some (w, h) }

/-- The sample dictionary returned by
`LocalSubjectsDataset.__getitem__`. -/
structure RawSample where
  imageA : LoadedImage
  prompt : String
  imageB : LoadedImage

/-- The method `LocalSubjectsDataset.__len__` (train.py:36-37): the CSV record
count. -/
def LocalSubjectsDataset.len (d : LocalSubjectsDataset) : Nat :=
  d.data.length

/-- The method `LocalSubjectsDataset.__getitem__` (train.py:39-60): resolve the two
filenames against the image directory, open both images and apply the
transform. -/
def LocalSubjectsDataset.getItem? (d : LocalSubjectsDataset) (idx : Nat) :
    Option RawSample :=
  (d.data[idx]?).map fun row =>
    { imageA := applyTransform d.transform
        { path := pathJoin d.imageDir row.imageA, resizedTo := none },
      prompt := row.prompt,
      imageB := applyTransform d.transform
        { path := pathJoin d.imageDir row.imageB, resizedTo := none } }

/-! The scene adapter and the batch loader

`SceneDataset` lives in `src/train/data.py`, which is not part of the
sources; the torch `DataLoader` is an external library.  Both are
modelled from the spec. -/

/-- Modelled from the spec: `SceneDataset` (defined in `src/train/data.py`,
absent from the sources) wraps the raw local dataset together with the
sizing, padding, condition-type and dropout parameters; its length matches
the underlying raw source's record count and per-index access returns a
condition/target/prompt record.  The per-access probabilistic dropout
gates are abstracted away. -/
structure SceneDataset where
  base : LocalSubjectsDataset
  conditionSize : Value
  targetSize : Value
  imageSize : Value
  padding : Value
  condType : Value
  dropText : Value
  dropImage : Value

/-- A sample record produced by a dataset adapter: condition image, target
image and text prompt. -/
structure SampleRecord where
  condition : LoadedImage
  target : LoadedImage
  prompt : String

/-- Modelled from the spec: the scene adapter's length equals the wrapped
raw source's record count. -/
def SceneDataset.len (d : SceneDataset) : Nat :=
  d.base.len

/-- Modelled from the spec: the scene adapter's per-index records, with the
condition image taken from `imageA`, the target from `imageB`, and the
prompt passed through. -/
def SceneDataset.samples (d : SceneDataset) : List SampleRecord :=
  d.base.data.map fun row =>
    { condition := applyTransform d.base.transform
        { path := pathJoin d.base.imageDir row.imageA, resizedTo := none },
      target := applyTransform d.base.transform
        { path := pathJoin d.base.imageDir row.imageB, resizedTo := none },
      prompt := row.prompt }

/-- Split a list into consecutive chunks of `bs` elements, the last chunk
possibly shorter; `fuel` only bounds the recursion depth and never runs
out when it starts at the list's length. -/
def chunkListAux (bs : Nat) : Nat → List α → List (List α)
  | _, [] => []
  | 0, _ :: _ => []
  | fuel + 1, x :: xs =>
    (x :: xs.take (bs - 1)) :: chunkListAux bs fuel (xs.drop (bs - 1))

/-- Split a list into consecutive chunks of `bs` elements, the last chunk
possibly shorter. -/
def chunkList (bs : Nat) (l : List α) : List (List α) :=
  chunkListAux bs l.length l

/-- Modelled from the spec: the external batch loader yields fixed-size
shuffled batches with the final shorter batch kept (`drop_last` is off);
shuffling only permutes the samples, so batch count and batch sizes depend
only on the dataset length and the batch size. -/
def loaderBatches (samples : List SampleRecord) (bs : Nat) :
    List (List SampleRecord) :=
  chunkList bs samples

/-! The observable events of a run of `main` -/

/-- The externally observable actions `main` performs, in program order. -/
inductive Event where
  | pickRank (rank : Int)
  | setDevice (rank : Int)
  | loadConfig
  | initWandb (project : Value) (runName : String)
  | printRank (rank : Int)
  | printConfig
  | readCsv (csvFile : String) (imageDir : String)
  | printSceneInfo
  | buildSceneAdapter
  | loadWebdataset (urls : Value)
  | buildImageAdapter
  | loadHostedDataset (name : String)
  | buildCartoonAdapter
  | buildLoader (batchSize : Value) (numWorkers : Value)
  | buildModel
  | buildCallback (runName : String)
  | buildTrainer
  | makeDir (path : String)
  | writeConfigYaml (path : String) (content : Value)
  | fit

/-- A dataset adapter as produced by the dispatch in `main`
(train.py:111-160); the parameters are the constructor arguments. -/
inductive Adapter where
  | scene (base : LocalSubjectsDataset) (conditionSize targetSize imageSize
      padding condType dropText dropImage : Value)
  | image (urls : Value) (conditionSize targetSize condType dropText
      dropImage positionScale : Value)
  | cartoon (conditionSize targetSize imageSize padding condType dropText
      dropImage : Value)

/-- A required dict lookup: Python raises KeyError when the key is
absent. -/
def req (o : Option Value) : Except RunError Value :=
  match o with
  | none => .error .lookupError
  | some v => .ok v

/-- The `SceneDataset(...)` argument lookups (train.py:117-126), in
Python's evaluation order. -/
def sceneAdapterArgs (tc ds : Value) (base : LocalSubjectsDataset) :
    Except RunError Adapter :=
  match ds.get? "condition_size" with
  | none => .error .lookupError
  | some cs =>
  match ds.get? "target_size" with
  | none => .error .lookupError
  | some ts =>
  match ds.get? "image_size" with
  | none => .error .lookupError
  | some imgSize =>
  match ds.get? "padding" with
  | none => .error .lookupError
  | some pad =>
  match tc.get? "condition_type" with
  | none => .error .lookupError
  | some ct =>
  match ds.get? "drop_text_prob" with
  | none => .error .lookupError
  | some dt =>
  match ds.get? "drop_image_prob" with
  | none => .error .lookupError
  | some di =>
    .ok (.scene base cs ts imgSize pad ct dt di)

/-- The `ImageConditionDataset(...)` argument lookups (train.py:136-144). -/
def imageAdapterArgs (tc ds : Value) (urls : Value) :
    Except RunError Adapter :=
  match ds.get? "condition_size" with
  | none => .error .lookupError
  | some cs =>
  match ds.get? "target_size" with
  | none => .error .lookupError
  | some ts =>
  match tc.get? "condition_type" with
  | none => .error .lookupError
  | some ct =>
  match ds.get? "drop_text_prob" with
  | none => .error .lookupError
  | some dt =>
  match ds.get? "drop_image_prob" with
  | none => .error .lookupError
  | some di =>
    .ok (.image urls cs ts ct dt di (ds.getD "position_scale" (Value.rat 1)))

/-- The `CartoonDataset(...)` argument lookups (train.py:147-156). -/
def cartoonAdapterArgs (tc ds : Value) : Except RunError Adapter :=
  match ds.get? "condition_size" with
  | none => .error .lookupError
  | some cs =>
  match ds.get? "target_size" with
  | none => .error .lookupError
  | some ts =>
  match ds.get? "image_size" with
  | none => .error .lookupError
  | some imgSize =>
  match ds.get? "padding" with
  | none => .error .lookupError
  | some pad =>
  match tc.get? "condition_type" with
  | none => .error .lookupError
  | some ct =>
  match ds.get? "drop_text_prob" with
  | none => .error .lookupError
  | some dt =>
  match ds.get? "drop_image_prob" with
  | none => .error .lookupError
  | some di =>
    .ok (.cartoon cs ts imgSize pad ct dt di)

/-- The dataset dispatch (train.py:111-160).  `csvFs` maps a path to the
parsed rows of a readable CSV file at that path.  The `scene` branch
constructs `LocalSubjectsDataset(csv_file='csv_path',
image_dir='images_path', transform=transform)` with those two hard-coded
literal strings (train.py:112); the configured `csv_file` / `image_dir`
entries of the dataset group are never consulted.  The second
`elif ... == "scene"` branch (train.py:157) is unreachable because the
first branch already matches, and the final `else` raises
NotImplementedError. -/
def selectDataset (csvFs : String → Option (List CsvRow)) (tc : Value) :
    List Event × Except RunError Adapter :=
  match tc.get? "dataset" with
  | none => ([], .error .lookupError)
  | some ds =>
  match ds.get? "type" with
  | none => ([], .error .lookupError)
  | some ty =>
  match ty with
  | .str "scene" =>
    match csvFs "csv_path" with
    | none => ([Event.readCsv "csv_path" "images_path"], .error .fileNotFoundError)
    | some rows =>
      match sceneAdapterArgs tc ds
          { data := rows, imageDir := "images_path", transform := some transform } with
      | .error e =>
        ([Event.readCsv "csv_path" "images_path", Event.printSceneInfo], .error e)
      | .ok a =>
        ([Event.readCsv "csv_path" "images_path", Event.printSceneInfo,
          Event.buildSceneAdapter], .ok a)
  | .str "img" =>
    match ds.get? "urls" with
    | none => ([], .error .lookupError)
    | some urls =>
      match imageAdapterArgs tc ds urls with
      | .error e => ([Event.loadWebdataset urls], .error e)
      | .ok a => ([Event.loadWebdataset urls, Event.buildImageAdapter], .ok a)
  | .str "cartoon" =>
    match cartoonAdapterArgs tc ds with
    | .error e => ([Event.loadHostedDataset "saquiboye/oye-cartoon"], .error e)
    | .ok a =>
      ([Event.loadHostedDataset "saquiboye/oye-cartoon", Event.buildCartoonAdapter], .ok a)
  | _ => ([], .error .notImplementedError)

/-! The remaining stages of `main` -/

/-- The wandb step (train.py:101-104 together with `init_wandb`,
train.py:84-90): when a `wandb` group is configured and the process is
primary, `wandb.init` is called with the configured project and the run
name. -/
def wandbStage (isMain : Bool) (tc : Value) (runName : String) :
    List Event × Option RunError :=
  let w := tc.getD "wandb" Value.null
  if (!w.isNull) && isMain then
    match w.get? "project" with
    | none => ([], some RunError.lookupError)
    | some proj => ([Event.initWandb proj runName], none)
  else ([], none)

/-- The `DataLoader(...)` argument lookups (train.py:163-168):
`batch_size` and `num_workers`; `shuffle` is the literal `True`. -/
def loaderArgs (tc : Value) : Except RunError (Value × Value) :=
  match tc.get? "batch_size" with
  | none => .error .lookupError
  | some bs =>
  match tc.get? "dataloader_workers" with
  | none => .error .lookupError
  | some nw => .ok (bs, nw)

/-- The model wrapper as constructed by `main`; the fields are the
`OminiModel(...)` constructor arguments (train.py:172-180). -/
structure OminiModel where
  fluxPipeId : Value
  loraConfig : Value
  device : String
  dtype : Value
  optimizerConfig : Value
  modelConfig : Value
  gradientCheckpointing : Value

/-- The `OminiModel(...)` argument lookups (train.py:172-180), in Python's
evaluation order; `model` defaults to an empty mapping and
`gradient_checkpointing` to `False`. -/
def modelArgs (config tc : Value) : Except RunError OminiModel :=
  match config.get? "flux_path" with
  | none => .error .lookupError
  | some fp =>
  match tc.get? "lora_config" with
  | none => .error .lookupError
  | some lc =>
  match config.get? "dtype" with
  | none => .error .lookupError
  | some dt =>
  match tc.get? "optimizer" with
  | none => .error .lookupError
  | some oc =>
    .ok { fluxPipeId := fp, loraConfig := lc, device := "cuda", dtype := dt,
          optimizerConfig := oc,
          modelConfig := config.getD "model" (Value.dict []),
          gradientCheckpointing := tc.getD "gradient_checkpointing" (Value.bool false) }

/-- Modelled from the spec: `TrainingCallback` (defined in
`src/train/callbacks.py`, absent from the sources) is the observability
hook; all that matters here is that it is constructed from the run name
and the training config. -/
structure TrainingCallback where
  runName : String
  trainingConfig : Value

/-- The callback list (train.py:182-186): a single `TrainingCallback` on
the primary process, the empty list otherwise. -/
def trainingCallbacks (isMain : Bool) (runName : String) (tc : Value) :
    List TrainingCallback :=
  if isMain then [{ runName := runName, trainingConfig := tc }] else []

/-- The Lightning sentinel value `-1` that the script passes for an
unbounded step or epoch budget. -/
def unboundedCap : Value := Value.int (-1)

/-- The trainer as configured by `main`; the fields are the `L.Trainer`
keyword arguments (train.py:189-198). -/
structure TrainerCfg where
  accumulateGradBatches : Value
  callbacks : List TrainingCallback
  enableCheckpointing : Bool
  enableProgressBar : Bool
  loggerEnabled : Bool
  maxSteps : Value
  maxEpochs : Value
  gradientClipVal : Value

/-- The `L.Trainer(...)` construction (train.py:189-198):
`accumulate_grad_batches` is a required key; checkpointing, progress bar
and logger are disabled; `max_steps` and `max_epochs` default to the
unbounded sentinel `-1`; `gradient_clip_val` defaults to `0.5`. -/
def buildTrainer (tc : Value) (cbs : List TrainingCallback) :
    Except RunError TrainerCfg :=
  match tc.get? "accumulate_grad_batches" with
  | none => .error .lookupError
  | some ac =>
    .ok { accumulateGradBatches := ac, callbacks := cbs,
          enableCheckpointing := false, enableProgressBar := false,
          loggerEnabled := false,
          maxSteps := tc.getD "max_steps" unboundedCap,
          maxEpochs := tc.getD "max_epochs" unboundedCap,
          gradientClipVal := tc.getD "gradient_clip_val" (Value.rat ((1 : Rat) / 2)) }

/-- The config-persistence and fit tail (train.py:202-210): on the primary
process `os.makedirs(f"{save_path}/{run_name}")` is called (raising
FileExistsError when the directory already exists, since `exist_ok` is not
passed), then the config is dumped verbatim to `config.yaml` inside it;
finally `trainer.fit` runs on every process.  `dirExists` tells whether a
directory already exists at a path. -/
def saveStage (isMain : Bool) (savePath runName : String) (config : Value)
    (dirExists : String → Bool) : List Event × Option RunError :=
  let dir := savePath ++ "/" ++ runName
  if isMain then
    if dirExists dir then
      ([Event.makeDir dir], some RunError.fileExistsError)
    else
      ([Event.makeDir dir, Event.writeConfigYaml (dir ++ "/config.yaml") config,
        Event.fit], none)
  else ([Event.fit], none)

/-! The function `main` (train.py:93-210), phase by phase

Each `phase...` function is the remainder of `main` from one stage on:
its event trace followed by the trace of the next phase, cut short at the
first uncaught exception. -/

/-- From the save-path lookup on (train.py:203-210). -/
def phaseSave (isMain : Bool) (tc config : Value) (runName : String)
    (dirExists : String → Bool) : List Event × Option RunError :=
  saveStage isMain (strOf (tc.getD "save_path" (Value.str "./output")))
    runName config dirExists

/-- From callback-list and trainer construction on (train.py:182-210). -/
def phaseTrainer (isMain : Bool) (tc config : Value) (runName : String)
    (dirExists : String → Bool) : List Event × Option RunError :=
  let cbs := trainingCallbacks isMain runName tc
  let cbEvents := cbs.map fun cb => Event.buildCallback cb.runName
  match buildTrainer tc cbs with
  | .error e => (cbEvents, some e)
  | .ok _ =>
    (cbEvents ++ Event.buildTrainer :: (phaseSave isMain tc config runName dirExists).1,
     (phaseSave isMain tc config runName dirExists).2)

/-- From model construction on (train.py:172-210). -/
def phaseModel (isMain : Bool) (tc config : Value) (runName : String)
    (dirExists : String → Bool) : List Event × Option RunError :=
  match modelArgs config tc with
  | .error e => ([], some e)
  | .ok _ =>
    (Event.buildModel :: (phaseTrainer isMain tc config runName dirExists).1,
     (phaseTrainer isMain tc config runName dirExists).2)

/-- From dataloader construction on (train.py:163-210). -/
def phaseLoader (isMain : Bool) (tc config : Value) (runName : String)
    (dirExists : String → Bool) : List Event × Option RunError :=
  match loaderArgs tc with
  | .error e => ([], some e)
  | .ok (bs, nw) =>
    (Event.buildLoader bs nw :: (phaseModel isMain tc config runName dirExists).1,
     (phaseModel isMain tc config runName dirExists).2)

/-- From dataset selection on (train.py:111-210). -/
def phaseDataset (isMain : Bool) (csvFs : String → Option (List CsvRow))
    (tc config : Value) (runName : String) (dirExists : String → Bool) :
    List Event × Option RunError :=
  match selectDataset csvFs tc with
  | (tD, .error e) => (tD, some e)
  | (tD, .ok _) =>
    (tD ++ (phaseLoader isMain tc config runName dirExists).1,
     (phaseLoader isMain tc config runName dirExists).2)

/-- From the rank / config prints on (train.py:106-210). -/
def phasePrints (isMain : Bool) (rank : Int)
    (csvFs : String → Option (List CsvRow)) (tc config : Value)
    (runName : String) (dirExists : String → Bool) :
    List Event × Option RunError :=
  (Event.printRank rank :: ((if isMain then [Event.printConfig] else []) ++
      (phaseDataset isMain csvFs tc config runName dirExists).1),
   (phaseDataset isMain csvFs tc config runName dirExists).2)

/-- From the wandb step on (train.py:101-210). -/
def phaseWandb (isMain : Bool) (rank : Int)
    (csvFs : String → Option (List CsvRow)) (tc config : Value)
    (runName : String) (dirExists : String → Bool) :
    List Event × Option RunError :=
  match wandbStage isMain tc runName with
  | (tW, some e) => (tW, some e)
  | (tW, none) =>
    (tW ++ (phasePrints isMain rank csvFs tc config runName dirExists).1,
     (phasePrints isMain rank csvFs tc config runName dirExists).2)

/-- From the `config["train"]` lookup on (train.py:98-210). -/
def phaseTrain (isMain : Bool) (rank : Int)
    (csvFs : String → Option (List CsvRow)) (config : Value)
    (runName : String) (dirExists : String → Bool) :
    List Event × Option RunError :=
  match config.get? "train" with
  | none => ([], some RunError.lookupError)
  | some tc => phaseWandb isMain rank csvFs tc config runName dirExists

/-- The body of `main` after `is_main_process, rank = get_rank() == 0,
get_rank()` (train.py:95): set the device, load the config, then run the
remaining phases.  `runName` stands for the `time.strftime` timestamp
(train.py:99). -/
def runCore (isMain : Bool) (rank : Int) (env : Env)
    (fsYaml : String → Option Value)
    (csvFs : String → Option (List CsvRow)) (runName : String)
    (dirExists : String → Bool) : List Event × Option RunError :=
  match get_config env fsYaml with
  | .error e => ([Event.pickRank rank, Event.setDevice rank], some e)
  | .ok config =>
    (Event.pickRank rank :: Event.setDevice rank :: Event.loadConfig ::
       (phaseTrain isMain rank csvFs config runName dirExists).1,
     (phaseTrain isMain rank csvFs config runName dirExists).2)

/-- The function `main` (train.py:93-210): the primary-process test and the rank are
both computed from `get_rank()`, then the body runs. -/
def main (env : Env) (fsYaml : String → Option Value)
    (csvFs : String → Option (List CsvRow)) (runName : String)
    (dirExists : String → Bool) : List Event × Option RunError :=
  runCore (get_rank env == 0) (get_rank env) env fsYaml csvFs runName dirExists

/-! Event classifiers -/

/-- True exactly for the rank-pick event. -/
def isPickRankE : Event → Bool
  | .pickRank _ => true
  | _ => false

/-- True exactly for the config-load event. -/
def isLoadConfigE : Event → Bool
  | .loadConfig => true
  | _ => false

/-- True for the events that only the primary process may perform: wandb
initialization, the config print, callback construction, directory
creation and the config write. -/
def primaryOnlyEvent : Event → Bool
  | .initWandb _ _ => true
  | .printConfig => true
  | .buildCallback _ => true
  | .makeDir _ => true
  | .writeConfigYaml _ _ => true
  | _ => false

/-- True exactly for the config-write event. -/
def isWriteE : Event → Bool
  | .writeConfigYaml _ _ => true
  | _ => false

/-- True exactly for the fit event. -/
def isFitE : Event → Bool
  | .fit => true
  | _ => false

/-- True for the events that construct a dataset, perform dataset I/O, or
construct the model wrapper. -/
def constructionEvent : Event → Bool
  | .readCsv _ _ => true
  | .loadWebdataset _ => true
  | .loadHostedDataset _ => true
  | .buildSceneAdapter => true
  | .buildImageAdapter => true
  | .buildCartoonAdapter => true
  | .buildModel => true
  | _ => false

/-- The stage an event belongs to, numbered along the actual program
order of `main`: rank/device selection, config load, wandb/prints,
dataset, loader, model, callbacks, trainer, directory creation, config
write, fit. -/
def stageIdx : Event → Nat
  | .pickRank _ => 0
  | .setDevice _ => 0
  | .loadConfig => 1
  | .initWandb _ _ => 2
  | .printRank _ => 2
  | .printConfig => 2
  | .readCsv _ _ => 3
  | .printSceneInfo => 3
  | .buildSceneAdapter => 3
  | .loadWebdataset _ => 3
  | .buildImageAdapter => 3
  | .loadHostedDataset _ => 3
  | .buildCartoonAdapter => 3
  | .buildLoader _ _ => 4
  | .buildModel => 5
  | .buildCallback _ => 6
  | .buildTrainer => 7
  | .makeDir _ => 8
  | .writeConfigYaml _ _ => 9
  | .fit => 10

/-- Erase the raw rank value recorded inside the three rank-carrying
events, leaving everything else unchanged. -/
def eraseRank : Event → Event
  | .pickRank _ => .pickRank 0
  | .setDevice _ => .setDevice 0
  | .printRank _ => .printRank 0
  | e => e

/-- A trace whose events appear in nondecreasing stage order. -/
def StageSorted (l : List Event) : Prop :=
  List.Pairwise (fun a b => stageIdx a ≤ stageIdx b) l

/-! A concrete demonstration run -/

/-- A four-row CSV table. -/
def rowsDemo : List CsvRow :=
  [{ imageA := "a1.png", prompt := "p1", imageB := "b1.png" },
   { imageA := "a2.png", prompt := "p2", imageB := "b2.png" },
   { imageA := "a3.png", prompt := "p3", imageB := "b3.png" },
   { imageA := "a4.png", prompt := "p4", imageB := "b4.png" }]

/-- A scene dataset group that also carries the configured `csv_file` and
`image_dir` entries the spec documents. -/
def dsDemo : Value :=
  Value.dict
    [("type", Value.str "scene"),
     ("csv_file", Value.str "data.csv"),
     ("image_dir", Value.str "imgs"),
     ("condition_size", Value.int 512),
     ("target_size", Value.int 512),
     ("image_size", Value.int 512),
     ("padding", Value.int 8),
     ("drop_text_prob", Value.rat ((1 : Rat) / 10)),
     ("drop_image_prob", Value.rat ((1 : Rat) / 10))]

/-- A complete `train` group for a scene run with `batch_size=2` and
`dataloader_workers=0`. -/
def tcDemo : Value :=
  Value.dict
    [("condition_type", Value.str "scene"),
     ("dataset", dsDemo),
     ("batch_size", Value.int 2),
     ("dataloader_workers", Value.int 0),
     ("lora_config", Value.dict []),
     ("optimizer", Value.dict []),
     ("accumulate_grad_batches", Value.int 1)]

/-- A complete config document for the demonstration run. -/
def cfgDemo : Value :=
  Value.dict
    [("flux_path", Value.str "black-forest-labs/FLUX.1-dev"),
     ("dtype", Value.str "bfloat16"),
     ("train", tcDemo)]

/-- An environment with XFL_CONFIG set and LOCAL_RANK unset. -/
def envDemo : Env := fun k => if k = "XFL_CONFIG" then some "cfg.yaml" else none

/-- A YAML filesystem holding the demo config at the configured path. -/
def fsYamlDemo : String → Option Value :=
  fun p => if p = "cfg.yaml" then some cfgDemo else none

/-- A CSV filesystem that (charitably) holds the four-row table at the
hard-coded path `csv_path` that the script actually reads. -/
def csvFsDemo : String → Option (List CsvRow) :=
  fun p => if p = "csv_path" then some rowsDemo else none

/-- A CSV filesystem matching the configured layout: the table lives at
the configured `csv_file` path `data.csv`; no file named `csv_path`
exists. -/
def csvFsConfigured : String → Option (List CsvRow) :=
  fun p => if p = "data.csv" then some rowsDemo else none

/-- The demonstration run of `main`. -/
def mainDemo : List Event × Option RunError :=
  main envDemo fsYamlDemo csvFsDemo "20260101-000000" (fun _ => false)

/-- The same environment as `envDemo` but with LOCAL_RANK set to 1 — a
non-primary process. -/
def envRank1 : Env := fun k =>
  if k = "XFL_CONFIG" then some "cfg.yaml"
  else if k = "LOCAL_RANK" then some "1"
  else none

/-! Helper lemmas: behaviour of a non-primary process -/

theorem wandbStage_notMain (tc : Value) (rn : String) :
    wandbStage false tc rn = ([], none) := by
  simp [wandbStage]

theorem saveStage_notMain (sp rn : String) (cfg : Value)
    (de : String → Bool) : saveStage false sp rn cfg de = ([Event.fit], none) :=
  rfl

theorem trainingCallbacks_notMain (rn : String) (tc : Value) :
    trainingCallbacks false rn tc = [] :=
  rfl

theorem selectDataset_primaryFree (csvFs : String → Option (List CsvRow))
    (tc : Value) :
    ∀ e ∈ (selectDataset csvFs tc).1, primaryOnlyEvent e = false := by
  intro e he
  unfold selectDataset at he
  repeat' split at he
  all_goals
    simp only [List.mem_cons, List.mem_singleton, List.not_mem_nil,
      or_false] at he
  all_goals try rcases he with he | he
  all_goals try rcases he with he | he
  all_goals try subst he
  all_goals rfl

theorem phaseSave_primaryFree (tc config : Value) (rn : String)
    (de : String → Bool) :
    ∀ e ∈ (phaseSave false tc config rn de).1, primaryOnlyEvent e = false := by
  intro e he
  simp only [phaseSave, saveStage_notMain, List.mem_singleton] at he
  subst he
  rfl

theorem phaseTrainer_primaryFree (tc config : Value) (rn : String)
    (de : String → Bool) :
    ∀ e ∈ (phaseTrainer false tc config rn de).1, primaryOnlyEvent e = false := by
  intro e he
  simp only [phaseTrainer, trainingCallbacks_notMain, List.map_nil,
    List.nil_append] at he
  split at he
  · simp at he
  · simp only [List.mem_cons] at he
    rcases he with h | h
    · subst h; rfl
    · exact phaseSave_primaryFree tc config rn de e h

theorem phaseModel_primaryFree (tc config : Value) (rn : String)
    (de : String → Bool) :
    ∀ e ∈ (phaseModel false tc config rn de).1, primaryOnlyEvent e = false := by
  intro e he
  unfold phaseModel at he
  split at he
  · simp at he
  · simp only [List.mem_cons] at he
    rcases he with h | h
    · subst h; rfl
    · exact phaseTrainer_primaryFree tc config rn de e h

theorem phaseLoader_primaryFree (tc config : Value) (rn : String)
    (de : String → Bool) :
    ∀ e ∈ (phaseLoader false tc config rn de).1, primaryOnlyEvent e = false := by
  intro e he
  unfold phaseLoader at he
  split at he
  · simp at he
  · simp only [List.mem_cons] at he
    rcases he with h | h
    · subst h; rfl
    · exact phaseModel_primaryFree tc config rn de e h

theorem phaseDataset_primaryFree (csvFs : String → Option (List CsvRow))
    (tc config : Value) (rn : String) (de : String → Bool) :
    ∀ e ∈ (phaseDataset false csvFs tc config rn de).1,
      primaryOnlyEvent e = false := by
  intro e he
  unfold phaseDataset at he
  split at he
  · rename_i tD err heq
    exact selectDataset_primaryFree csvFs tc e (by rw [heq]; exact he)
  · rename_i tD a heq
    simp only [List.mem_append] at he
    rcases he with h | h
    · exact selectDataset_primaryFree csvFs tc e (by rw [heq]; exact h)
    · exact phaseLoader_primaryFree tc config rn de e h

theorem phasePrints_primaryFree (rank : Int)
    (csvFs : String → Option (List CsvRow)) (tc config : Value)
    (rn : String) (de : String → Bool) :
    ∀ e ∈ (phasePrints false rank csvFs tc config rn de).1,
      primaryOnlyEvent e = false := by
  intro e he
  simp only [phasePrints, Bool.false_eq_true, if_false, List.nil_append,
    List.mem_cons] at he
  rcases he with h | h
  · subst h; rfl
  · exact phaseDataset_primaryFree csvFs tc config rn de e h

theorem phaseWandb_primaryFree (rank : Int)
    (csvFs : String → Option (List CsvRow)) (tc config : Value)
    (rn : String) (de : String → Bool) :
    ∀ e ∈ (phaseWandb false rank csvFs tc config rn de).1,
      primaryOnlyEvent e = false := by
  intro e he
  simp only [phaseWandb, wandbStage_notMain, List.nil_append] at he
  exact phasePrints_primaryFree rank csvFs tc config rn de e he

theorem phaseTrain_primaryFree (rank : Int)
    (csvFs : String → Option (List CsvRow)) (config : Value)
    (rn : String) (de : String → Bool) :
    ∀ e ∈ (phaseTrain false rank csvFs config rn de).1,
      primaryOnlyEvent e = false := by
  intro e he
  unfold phaseTrain at he
  split at he
  · simp at he
  · exact phaseWandb_primaryFree rank csvFs _ config rn de e he

theorem main_notMain_primaryFree (env : Env) (fs : String → Option Value)
    (csvFs : String → Option (List CsvRow)) (rn : String)
    (de : String → Bool) (h : get_rank env ≠ 0) :
    ∀ e ∈ (main env fs csvFs rn de).1, primaryOnlyEvent e = false := by
  have hb : (get_rank env == 0) = false := by
    simp only [beq_eq_false_iff_ne, ne_eq]
    exact h
  intro e he
  unfold main at he
  rw [hb] at he
  unfold runCore at he
  split at he
  · simp only [List.mem_cons, List.not_mem_nil, or_false] at he
    rcases he with h1 | h1 <;> subst h1 <;> rfl
  · simp only [List.mem_cons] at he
    rcases he with h1 | h1 | h1 | h1
    · subst h1; rfl
    · subst h1; rfl
    · subst h1; rfl
    · exact phaseTrain_primaryFree (get_rank env) csvFs _ rn de e h1

/-! Theorems about the claims -/

/-- C9: rank detection never fails: `get_rank` always returns an integer;
when LOCAL_RANK is unset, or set to a string that does not parse as an
integer, it returns 0 (silently treating the process as primary), and when
it parses, the parsed value is returned. -/
theorem get_rank_total_and_default (env : Env) (s : String) (n : Int) :
    (env "LOCAL_RANK" = none → get_rank env = 0) ∧
    (env "LOCAL_RANK" = some s → pyIntOfString? s = none → get_rank env = 0) ∧
    (env "LOCAL_RANK" = some s → pyIntOfString? s = some n → get_rank env = n) := by
  refine ⟨fun h => ?_, fun h hp => ?_, fun h hp => ?_⟩
  · simp [get_rank, h]
  · simp [get_rank, h, hp]
  · simp [get_rank, h, hp]

/-- Witness for C9 at three concrete environments: LOCAL_RANK unset, set
to a non-numeric string, and set to `3`. -/
theorem get_rank_total_and_default_witness :
    get_rank (fun _ => none) = 0 ∧
    get_rank (fun _ => some "abc") = 0 ∧
    get_rank (fun _ => some "3") = 3 :=
  ⟨(get_rank_total_and_default (fun _ => none) "" 0).1 rfl,
   (get_rank_total_and_default (fun _ => some "abc") "abc" 0).2.1 rfl rfl,
   (get_rank_total_and_default (fun _ => some "3") "3" 3).2.2 rfl rfl⟩

/-- C2: when XFL_CONFIG is unset, `get_config` fails with the assertion
error and `main` stops having performed nothing beyond the rank pick and
device selection — in particular before any dataset I/O, dataset adapter
or model construction; when XFL_CONFIG names a readable YAML document,
`get_config` returns the parsed mapping. -/
theorem xfl_config_gate (env : Env) (fs : String → Option Value)
    (csvFs : String → Option (List CsvRow)) (rn : String)
    (de : String → Bool) (p : String) (v : Value) :
    (env "XFL_CONFIG" = none →
      get_config env fs = Except.error RunError.assertXflConfigUnset ∧
      main env fs csvFs rn de =
        ([Event.pickRank (get_rank env), Event.setDevice (get_rank env)],
         some RunError.assertXflConfigUnset) ∧
      ∀ e ∈ (main env fs csvFs rn de).1, constructionEvent e = false) ∧
    (env "XFL_CONFIG" = some p → fs p = some v →
      get_config env fs = Except.ok v) := by
  constructor
  · intro h
    have hg : get_config env fs = Except.error RunError.assertXflConfigUnset := by
      simp [get_config, h]
    have hm : main env fs csvFs rn de =
        ([Event.pickRank (get_rank env), Event.setDevice (get_rank env)],
         some RunError.assertXflConfigUnset) := by
      simp [main, runCore, hg]
    refine ⟨hg, hm, ?_⟩
    rw [hm]
    intro e he
    simp only [List.mem_cons, List.not_mem_nil, or_false] at he
    rcases he with h1 | h1 <;> subst h1 <;> rfl
  · intro hp hv
    simp [get_config, hp, hv]

/-- Witness for C2: with everything unset the run dies with the assertion
error before any construction; with the demo environment the parsed demo
config is returned. -/
theorem xfl_config_gate_witness :
    (main (fun _ => none) (fun _ => none) (fun _ => none) "rn" (fun _ => false) =
      ([Event.pickRank 0, Event.setDevice 0], some RunError.assertXflConfigUnset)) ∧
    get_config envDemo fsYamlDemo = Except.ok cfgDemo :=
  ⟨((xfl_config_gate (fun _ => none) (fun _ => none) (fun _ => none) "rn"
      (fun _ => false) "" Value.null).1 rfl).2.1,
   (xfl_config_gate envDemo fsYamlDemo csvFsDemo "rn" (fun _ => false)
      "cfg.yaml" cfgDemo).2 rfl rfl⟩

/-- C10: when the primary process reaches the config-persistence step and
the output directory `{save_path}/{run_name}` already exists, directory
creation fails with FileExistsError and the run aborts: no `config.yaml`
is written and `fit` is never called. -/
theorem save_collision_aborts (sp rn : String) (cfg : Value)
    (de : String → Bool) (h : de (sp ++ "/" ++ rn) = true) :
    saveStage true sp rn cfg de =
      ([Event.makeDir (sp ++ "/" ++ rn)], some RunError.fileExistsError) ∧
    (∀ p c, Event.writeConfigYaml p c ∉ (saveStage true sp rn cfg de).1) ∧
    Event.fit ∉ (saveStage true sp rn cfg de).1 := by
  have he : saveStage true sp rn cfg de =
      ([Event.makeDir (sp ++ "/" ++ rn)], some RunError.fileExistsError) := by
    simp [saveStage, h]
  refine ⟨he, ?_, ?_⟩ <;> simp [he]

/-- Witness for C10 at a concrete save path, run name and an
already-existing directory. -/
theorem save_collision_aborts_witness :
    saveStage true "./output" "20260101-000000" cfgDemo (fun _ => true) =
      ([Event.makeDir ("./output" ++ "/" ++ "20260101-000000")],
       some RunError.fileExistsError) :=
  (save_collision_aborts "./output" "20260101-000000" cfgDemo (fun _ => true) rfl).1

/-- C5: the trainer is configured with the script's defaults when the
corresponding keys are absent — `gradient_clip_val` defaults to `0.5` and
`max_steps` / `max_epochs` default to the unbounded sentinel — and with
the configured values, passed through unchanged, when present. -/
theorem trainer_defaults (tc : Value) (cbs : List TrainingCallback)
    (a : Value) (h : tc.get? "accumulate_grad_batches" = some a) :
    ∃ t, buildTrainer tc cbs = Except.ok t ∧
      t.accumulateGradBatches = a ∧ t.callbacks = cbs ∧
      (tc.get? "max_steps" = none → t.maxSteps = unboundedCap) ∧
      (∀ v, tc.get? "max_steps" = some v → t.maxSteps = v) ∧
      (tc.get? "max_epochs" = none → t.maxEpochs = unboundedCap) ∧
      (∀ v, tc.get? "max_epochs" = some v → t.maxEpochs = v) ∧
      (tc.get? "gradient_clip_val" = none →
        t.gradientClipVal = Value.rat ((1 : Rat) / 2)) ∧
      (∀ v, tc.get? "gradient_clip_val" = some v → t.gradientClipVal = v) := by
  refine ⟨{ accumulateGradBatches := a, callbacks := cbs,
            enableCheckpointing := false, enableProgressBar := false,
            loggerEnabled := false,
            maxSteps := tc.getD "max_steps" unboundedCap,
            maxEpochs := tc.getD "max_epochs" unboundedCap,
            gradientClipVal := tc.getD "gradient_clip_val" (Value.rat ((1 : Rat) / 2)) },
          by simp [buildTrainer, h], rfl, rfl, ?_, ?_, ?_, ?_, ?_, ?_⟩
  · intro hk; simp [Value.getD, hk]
  · intro v hk; simp [Value.getD, hk]
  · intro hk; simp [Value.getD, hk]
  · intro v hk; simp [Value.getD, hk]
  · intro hk; simp [Value.getD, hk]
  · intro v hk; simp [Value.getD, hk]

/-- Witness for C5: on the demo `train` group, where the three keys are
absent, the defaults are the unbounded sentinels and `0.5`. -/
theorem trainer_defaults_witness :
    ∃ t, buildTrainer tcDemo [] = Except.ok t ∧
      t.maxSteps = unboundedCap ∧ t.maxEpochs = unboundedCap ∧
      t.gradientClipVal = Value.rat ((1 : Rat) / 2) := by
  obtain ⟨t, h1, _, _, h4, _, h6, _, h8, _⟩ :=
    trainer_defaults tcDemo [] (Value.int 1) rfl
  exact ⟨t, h1, h4 rfl, h6 rfl, h8 rfl⟩

/-- C3: for a configured `train.dataset.type` that is none of `scene`,
`img` or `cartoon`, dataset selection fails immediately through the final
fallthrough with NotImplementedError: the event trace is empty (no dataset
I/O is performed) and no adapter is constructed. -/
theorem dataset_dispatch_fallthrough (csvFs : String → Option (List CsvRow))
    (tc ds ty : Value) (h1 : tc.get? "dataset" = some ds)
    (h2 : ds.get? "type" = some ty) (h3 : ty ≠ Value.str "scene")
    (h4 : ty ≠ Value.str "img") (h5 : ty ≠ Value.str "cartoon") :
    selectDataset csvFs tc = ([], Except.error RunError.notImplementedError) := by
  unfold selectDataset
  repeat' split
  all_goals simp_all

/-- Witness for C3 at the tag `"unsupported"`. -/
theorem dataset_dispatch_fallthrough_witness :
    selectDataset csvFsDemo
      (Value.dict [("dataset", Value.dict [("type", Value.str "unsupported")])]) =
      ([], Except.error RunError.notImplementedError) :=
  dataset_dispatch_fallthrough csvFsDemo
    (Value.dict [("dataset", Value.dict [("type", Value.str "unsupported")])])
    (Value.dict [("type", Value.str "unsupported")]) (Value.str "unsupported")
    rfl rfl (by simp) (by simp) (by simp)

/-- C1 (the code diverges from the claim): for a scene config whose
dataset group configures `csv_file = "data.csv"` and `image_dir = "imgs"`,
the script nonetheless reads the hard-coded path `csv_path` and resolves
images against the hard-coded directory `images_path` (train.py:112); the
configured values are never used, and when the table only exists at its
configured location the run dies with FileNotFoundError. -/
theorem scene_paths_hardcoded :
    (selectDataset csvFsDemo tcDemo).1 =
      [Event.readCsv "csv_path" "images_path", Event.printSceneInfo,
       Event.buildSceneAdapter] ∧
    dsDemo.get? "csv_file" = some (Value.str "data.csv") ∧
    dsDemo.get? "image_dir" = some (Value.str "imgs") ∧
    (∀ e ∈ (selectDataset csvFsDemo tcDemo).1, e ≠ Event.readCsv "data.csv" "imgs") ∧
    selectDataset csvFsConfigured tcDemo =
      ([Event.readCsv "csv_path" "images_path"],
       Except.error RunError.fileNotFoundError) := by
  refine ⟨rfl, rfl, rfl, ?_, rfl⟩
  intro e he
  have ht : (selectDataset csvFsDemo tcDemo).1 =
      [Event.readCsv "csv_path" "images_path", Event.printSceneInfo,
       Event.buildSceneAdapter] := rfl
  rw [ht] at he
  simp only [List.mem_cons, List.not_mem_nil, or_false] at he
  rcases he with h1 | h1 | h1 <;> subst h1 <;> simp

/-- C7: the local dataset's length equals the CSV's record count, and in
the end-to-end scene scenario with a four-row CSV and batch size 2 the
loader yields exactly two batches (the ceiling of 4/2), each holding two
condition/target/prompt sample records. -/
theorem scene_length_and_batches (rows : List CsvRow) (dir : String)
    (t : Option ImgTransform) (cs ts imgSize pad ct dtp dip : Value) :
    (LocalSubjectsDataset.mk rows dir t).len = rows.length ∧
    (rows.length = 4 →
      (SceneDataset.mk (LocalSubjectsDataset.mk rows dir t)
        cs ts imgSize pad ct dtp dip).len = 4 ∧
      (loaderBatches (SceneDataset.mk (LocalSubjectsDataset.mk rows dir t)
        cs ts imgSize pad ct dtp dip).samples 2).length = 2 ∧
      ∀ b ∈ loaderBatches (SceneDataset.mk (LocalSubjectsDataset.mk rows dir t)
        cs ts imgSize pad ct dtp dip).samples 2, b.length = 2) := by
  refine ⟨rfl, fun h4 => ?_⟩
  match rows, h4 with
  | [r1, r2, r3, r4], _ =>
    refine ⟨rfl, rfl, ?_⟩
    intro b hb
    simp only [loaderBatches, SceneDataset.samples, List.map_cons, List.map_nil,
      List.length_cons, List.length_nil, chunkList, chunkListAux, List.take,
      List.drop, List.mem_cons, List.not_mem_nil, or_false] at hb
    rcases hb with h | h <;> subst h <;> rfl

/-- Witness for C7 at the concrete four-row demo table. -/
theorem scene_length_and_batches_witness :
    (SceneDataset.mk (LocalSubjectsDataset.mk rowsDemo "images_path"
        (some transform)) (Value.int 512) (Value.int 512) (Value.int 512)
        (Value.int 8) (Value.str "scene") (Value.rat ((1 : Rat) / 10))
        (Value.rat ((1 : Rat) / 10))).len = 4 ∧
    (loaderBatches (SceneDataset.mk (LocalSubjectsDataset.mk rowsDemo
        "images_path" (some transform)) (Value.int 512) (Value.int 512)
        (Value.int 512) (Value.int 8) (Value.str "scene")
        (Value.rat ((1 : Rat) / 10)) (Value.rat ((1 : Rat) / 10))).samples
        2).length = 2 :=
  ⟨((scene_length_and_batches rowsDemo "images_path" (some transform)
      (Value.int 512) (Value.int 512) (Value.int 512) (Value.int 8)
      (Value.str "scene") (Value.rat ((1 : Rat) / 10))
      (Value.rat ((1 : Rat) / 10))).2 rfl).1,
   ((scene_length_and_batches rowsDemo "images_path" (some transform)
      (Value.int 512) (Value.int 512) (Value.int 512) (Value.int 8)
      (Value.str "scene") (Value.rat ((1 : Rat) / 10))
      (Value.rat ((1 : Rat) / 10))).2 rfl).2.1⟩

/-- C4: only the primary process persists the config: on any non-primary
process (rank ≠ 0) `main` never creates the output directory and never
writes a file, while on the primary process, when the directory does not
yet exist, the save step creates `{save_path}/{run_name}`, writes the
loaded config verbatim exactly once to `config.yaml` inside it, and only
then calls `fit`; concretely, the primary demonstration run contains
exactly one config write, placed before the `fit` call. -/
theorem config_persist_primary_only (env : Env) (fs : String → Option Value)
    (csvFs : String → Option (List CsvRow)) (rn : String)
    (de : String → Bool) (sp rn2 : String) (cfg : Value)
    (de2 : String → Bool) :
    (get_rank env ≠ 0 →
      (∀ p, Event.makeDir p ∉ (main env fs csvFs rn de).1) ∧
      (∀ p c, Event.writeConfigYaml p c ∉ (main env fs csvFs rn de).1)) ∧
    (de2 (sp ++ "/" ++ rn2) = false →
      saveStage true sp rn2 cfg de2 =
        ([Event.makeDir (sp ++ "/" ++ rn2),
          Event.writeConfigYaml (sp ++ "/" ++ rn2 ++ "/config.yaml") cfg,
          Event.fit], none)) ∧
    mainDemo.1.countP isWriteE = 1 ∧
    mainDemo.1.findIdx isWriteE < mainDemo.1.findIdx isFitE ∧
    mainDemo.1.any isFitE = true := by
  refine ⟨?_, ?_, by decide, by decide, by decide⟩
  · intro h
    constructor
    · intro p hp
      have hf := main_notMain_primaryFree env fs csvFs rn de h _ hp
      simp [primaryOnlyEvent] at hf
    · intro p c hp
      have hf := main_notMain_primaryFree env fs csvFs rn de h _ hp
      simp [primaryOnlyEvent] at hf
  · intro h
    simp [saveStage, h]

/-- Witness for C4: a rank-1 process of the demo run creates no directory
and writes nothing, and the primary save step at a fresh directory is the
makeDir-write-fit sequence. -/
theorem config_persist_primary_only_witness :
    Event.makeDir "./output/20260101-000000" ∉
      (main envRank1 fsYamlDemo csvFsDemo "20260101-000000" (fun _ => false)).1 ∧
    Event.writeConfigYaml "./output/20260101-000000/config.yaml" cfgDemo ∉
      (main envRank1 fsYamlDemo csvFsDemo "20260101-000000" (fun _ => false)).1 ∧
    saveStage true "./output" "20260101-000000" cfgDemo (fun _ => false) =
      ([Event.makeDir ("./output" ++ "/" ++ "20260101-000000"),
        Event.writeConfigYaml ("./output" ++ "/" ++ "20260101-000000" ++ "/config.yaml")
          cfgDemo, Event.fit], none) :=
  ⟨(((config_persist_primary_only envRank1 fsYamlDemo csvFsDemo
        "20260101-000000" (fun _ => false) "./output" "20260101-000000"
        cfgDemo (fun _ => false)).1 (by decide)).1 "./output/20260101-000000"),
   (((config_persist_primary_only envRank1 fsYamlDemo csvFsDemo
        "20260101-000000" (fun _ => false) "./output" "20260101-000000"
        cfgDemo (fun _ => false)).1 (by decide)).2 "./output/20260101-000000/config.yaml"
        cfgDemo),
   ((config_persist_primary_only envRank1 fsYamlDemo csvFsDemo
        "20260101-000000" (fun _ => false) "./output" "20260101-000000"
        cfgDemo (fun _ => false)).2.1 rfl)⟩

/-! Helper lemmas: stage ordering of the trace -/

theorem stageSorted_nil : StageSorted [] :=
  List.Pairwise.nil

theorem stageSorted_append {l1 l2 : List Event} (m : Nat)
    (h1 : StageSorted l1) (h2 : StageSorted l2)
    (hub : ∀ e ∈ l1, stageIdx e ≤ m) (hlb : ∀ e ∈ l2, m ≤ stageIdx e) :
    StageSorted (l1 ++ l2) := by
  unfold StageSorted at *
  rw [List.pairwise_append]
  exact ⟨h1, h2, fun a ha b hb => le_trans (hub a ha) (hlb b hb)⟩

theorem stageSorted_const {l : List Event} (k : Nat)
    (h : ∀ e ∈ l, stageIdx e = k) : StageSorted l := by
  induction l with
  | nil => exact List.Pairwise.nil
  | cons x xs ih =>
    refine List.Pairwise.cons ?_ (ih fun e he => h e (List.mem_cons_of_mem _ he))
    intro b hb
    rw [h x (List.mem_cons_self _ _), h b (List.mem_cons_of_mem _ hb)]

/-- Prepending a block of constant-stage events to a sorted tail of later
stages: the result is sorted and bounded below by the block's stage. -/
theorem stageSorted_block {pre tail : List Event} (k m : Nat)
    (hpre : ∀ e ∈ pre, stageIdx e = k) (hkm : k ≤ m)
    (htailS : StageSorted tail) (htailL : ∀ e ∈ tail, m ≤ stageIdx e) :
    StageSorted (pre ++ tail) ∧ ∀ e ∈ pre ++ tail, k ≤ stageIdx e := by
  constructor
  · exact stageSorted_append m (stageSorted_const k hpre) htailS
      (fun e he => le_trans (le_of_eq (hpre e he)) hkm) htailL
  · intro e he
    rcases List.mem_append.mp he with h | h
    · exact le_of_eq (hpre e h).symm
    · exact hkm.trans (htailL e h)

theorem selectDataset_stage3 (csvFs : String → Option (List CsvRow))
    (tc : Value) : ∀ e ∈ (selectDataset csvFs tc).1, stageIdx e = 3 := by
  intro e he
  unfold selectDataset at he
  repeat' split at he
  all_goals
    simp only [List.mem_cons, List.mem_singleton, List.not_mem_nil,
      or_false] at he
  all_goals try rcases he with he | he
  all_goals try rcases he with he | he
  all_goals try subst he
  all_goals rfl

theorem wandbStage_stage2 (b : Bool) (tc : Value) (rn : String) :
    ∀ e ∈ (wandbStage b tc rn).1, stageIdx e = 2 := by
  intro e he
  simp only [wandbStage] at he
  split at he
  · split at he
    · simp at he
    · simp only [List.mem_singleton] at he
      subst he
      rfl
  · simp at he

theorem saveStage_band (b : Bool) (sp rn : String) (cfg : Value)
    (de : String → Bool) :
    StageSorted (saveStage b sp rn cfg de).1 ∧
      ∀ e ∈ (saveStage b sp rn cfg de).1, 8 ≤ stageIdx e := by
  simp only [saveStage]
  split
  · split
    · constructor
      · exact List.pairwise_singleton _ _
      · intro e he
        simp only [List.mem_singleton] at he
        subst he
        exact le_refl 8
    · constructor
      · unfold StageSorted
        simp [stageIdx]
      · intro e he
        simp only [List.mem_cons, List.not_mem_nil, or_false] at he
        rcases he with h | h | h <;> subst h <;> simp [stageIdx]
  · constructor
    · exact List.pairwise_singleton _ _
    · intro e he
      simp only [List.mem_singleton] at he
      subst he
      simp [stageIdx]

theorem phaseSave_band (b : Bool) (tc config : Value) (rn : String)
    (de : String → Bool) :
    StageSorted (phaseSave b tc config rn de).1 ∧
      ∀ e ∈ (phaseSave b tc config rn de).1, 8 ≤ stageIdx e := by
  unfold phaseSave
  exact saveStage_band b _ rn config de

theorem phaseTrainer_band (b : Bool) (tc config : Value) (rn : String)
    (de : String → Bool) :
    StageSorted (phaseTrainer b tc config rn de).1 ∧
      ∀ e ∈ (phaseTrainer b tc config rn de).1, 6 ≤ stageIdx e := by
  have hc : ∀ e ∈ (trainingCallbacks b rn tc).map
      (fun cb => Event.buildCallback cb.runName), stageIdx e = 6 := by
    intro e he
    rcases List.mem_map.mp he with ⟨cb, _, rfl⟩
    rfl
  simp only [phaseTrainer]
  split
  · exact ⟨stageSorted_const 6 hc, fun e he => le_of_eq (hc e he).symm⟩
  · obtain ⟨hs, hb⟩ := phaseSave_band b tc config rn de
    have htail : StageSorted (Event.buildTrainer :: (phaseSave b tc config rn de).1) ∧
        ∀ e ∈ Event.buildTrainer :: (phaseSave b tc config rn de).1,
          7 ≤ stageIdx e := by
      rw [show Event.buildTrainer :: (phaseSave b tc config rn de).1 =
        [Event.buildTrainer] ++ (phaseSave b tc config rn de).1 from rfl]
      exact stageSorted_block 7 8
        (by intro e he; simp only [List.mem_singleton] at he; subst he; rfl)
        (by omega) hs hb
    exact stageSorted_block 6 7 hc (by omega) htail.1 htail.2

theorem phaseModel_band (b : Bool) (tc config : Value) (rn : String)
    (de : String → Bool) :
    StageSorted (phaseModel b tc config rn de).1 ∧
      ∀ e ∈ (phaseModel b tc config rn de).1, 5 ≤ stageIdx e := by
  unfold phaseModel
  split
  · exact ⟨stageSorted_nil, by simp⟩
  · obtain ⟨hs, hb⟩ := phaseTrainer_band b tc config rn de
    rw [show Event.buildModel :: (phaseTrainer b tc config rn de).1 =
      [Event.buildModel] ++ (phaseTrainer b tc config rn de).1 from rfl]
    exact stageSorted_block 5 6
      (by intro e he; simp only [List.mem_singleton] at he; subst he; rfl)
      (by omega) hs hb

theorem phaseLoader_band (b : Bool) (tc config : Value) (rn : String)
    (de : String → Bool) :
    StageSorted (phaseLoader b tc config rn de).1 ∧
      ∀ e ∈ (phaseLoader b tc config rn de).1, 4 ≤ stageIdx e := by
  unfold phaseLoader
  split
  · exact ⟨stageSorted_nil, by simp⟩
  · obtain ⟨hs, hb⟩ := phaseModel_band b tc config rn de
    rename_i bs nw heq
    rw [show Event.buildLoader bs nw :: (phaseModel b tc config rn de).1 =
      [Event.buildLoader bs nw] ++ (phaseModel b tc config rn de).1 from rfl]
    exact stageSorted_block 4 5
      (by intro e he; simp only [List.mem_singleton] at he; subst he; rfl)
      (by omega) hs hb

theorem phaseDataset_band (b : Bool) (csvFs : String → Option (List CsvRow))
    (tc config : Value) (rn : String) (de : String → Bool) :
    StageSorted (phaseDataset b csvFs tc config rn de).1 ∧
      ∀ e ∈ (phaseDataset b csvFs tc config rn de).1, 3 ≤ stageIdx e := by
  unfold phaseDataset
  split
  · rename_i tD err heq
    have hsel := selectDataset_stage3 csvFs tc
    rw [heq] at hsel
    exact ⟨stageSorted_const 3 hsel, fun e he => le_of_eq (hsel e he).symm⟩
  · rename_i tD a heq
    have hsel := selectDataset_stage3 csvFs tc
    rw [heq] at hsel
    obtain ⟨hs, hb⟩ := phaseLoader_band b tc config rn de
    exact stageSorted_block 3 4 hsel (by omega) hs hb

theorem phasePrints_band (b : Bool) (rank : Int)
    (csvFs : String → Option (List CsvRow)) (tc config : Value)
    (rn : String) (de : String → Bool) :
    StageSorted (phasePrints b rank csvFs tc config rn de).1 ∧
      ∀ e ∈ (phasePrints b rank csvFs tc config rn de).1, 2 ≤ stageIdx e := by
  obtain ⟨hs, hb⟩ := phaseDataset_band b csvFs tc config rn de
  have hpre : ∀ e ∈ Event.printRank rank :: (if b then [Event.printConfig] else []),
      stageIdx e = 2 := by
    intro e he
    cases b <;> simp at he
    · subst he; rfl
    · rcases he with h | h <;> subst h <;> rfl
  have hgoal := stageSorted_block 2 3 hpre (by omega) hs hb
  unfold phasePrints
  rw [show Event.printRank rank :: ((if b then [Event.printConfig] else []) ++
      (phaseDataset b csvFs tc config rn de).1) =
    (Event.printRank rank :: (if b then [Event.printConfig] else [])) ++
      (phaseDataset b csvFs tc config rn de).1 from rfl]
  exact hgoal

theorem phaseWandb_band (b : Bool) (rank : Int)
    (csvFs : String → Option (List CsvRow)) (tc config : Value)
    (rn : String) (de : String → Bool) :
    StageSorted (phaseWandb b rank csvFs tc config rn de).1 ∧
      ∀ e ∈ (phaseWandb b rank csvFs tc config rn de).1, 2 ≤ stageIdx e := by
  unfold phaseWandb
  split
  · rename_i tW err heq
    have hw := wandbStage_stage2 b tc rn
    rw [heq] at hw
    exact ⟨stageSorted_const 2 hw, fun e he => le_of_eq (hw e he).symm⟩
  · rename_i tW heq
    have hw := wandbStage_stage2 b tc rn
    rw [heq] at hw
    obtain ⟨hs, hb⟩ := phasePrints_band b rank csvFs tc config rn de
    exact stageSorted_block 2 2 hw (by omega) hs hb

theorem phaseTrain_band (b : Bool) (rank : Int)
    (csvFs : String → Option (List CsvRow)) (config : Value)
    (rn : String) (de : String → Bool) :
    StageSorted (phaseTrain b rank csvFs config rn de).1 ∧
      ∀ e ∈ (phaseTrain b rank csvFs config rn de).1, 2 ≤ stageIdx e := by
  unfold phaseTrain
  split
  · exact ⟨stageSorted_nil, by simp⟩
  · exact phaseWandb_band b rank csvFs _ config rn de

/-- C8 (amended ordering): in every run of `main`, the rank pick and
device selection come first, then the config load, then the optional
metrics-backend initialization and the prints, then dataset construction,
then the loader, the model wrapper, the callbacks, the driver, the config
persistence and finally `fit`: the trace is sorted by stage, so no stage's
events ever precede those of an earlier stage in this order. -/
theorem main_stage_order (env : Env) (fs : String → Option Value)
    (csvFs : String → Option (List CsvRow)) (rn : String)
    (de : String → Bool) : StageSorted (main env fs csvFs rn de).1 := by
  unfold main runCore
  split
  · unfold StageSorted
    simp [stageIdx]
  · rename_i config heq
    obtain ⟨hs, hb⟩ :=
      phaseTrain_band (get_rank env == 0) (get_rank env) csvFs config rn de
    have h1 : StageSorted ([Event.pickRank (get_rank env),
        Event.setDevice (get_rank env), Event.loadConfig] ++
        (phaseTrain (get_rank env == 0) (get_rank env) csvFs config rn de).1) := by
      apply stageSorted_append 2 ?_ hs ?_ hb
      · unfold StageSorted
        simp [stageIdx]
      · intro e he
        simp only [List.mem_cons, List.not_mem_nil, or_false] at he
        rcases he with h | h | h <;> subst h <;> simp [stageIdx]
    exact h1

/-- C8 (refuting the claimed order): in the demonstration run the rank is
picked at trace position 0, strictly before the config load at position 2,
so the config load does not precede the rank pick as the claim's listed
order requires. -/
theorem stage_order_counterexample :
    mainDemo.1.findIdx isPickRankE < mainDemo.1.findIdx isLoadConfigE ∧
    mainDemo.1.findIdx isPickRankE = 0 ∧
    mainDemo.1.findIdx isLoadConfigE = 2 ∧
    mainDemo.1.any isPickRankE = true ∧
    mainDemo.1.any isLoadConfigE = true := by
  refine ⟨?_, rfl, rfl, rfl, rfl⟩
  decide

/-! Helper lemmas: rank enters only through the primary test -/

theorem eraseRank_pickRank (r : Int) :
    eraseRank (Event.pickRank r) = Event.pickRank 0 := rfl

theorem eraseRank_setDevice (r : Int) :
    eraseRank (Event.setDevice r) = Event.setDevice 0 := rfl

theorem eraseRank_printRank (r : Int) :
    eraseRank (Event.printRank r) = Event.printRank 0 := rfl

theorem phaseWandb_eraseRank (b : Bool) (r r' : Int)
    (csvFs : String → Option (List CsvRow)) (tc config : Value)
    (rn : String) (de : String → Bool) :
    (phaseWandb b r csvFs tc config rn de).1.map eraseRank =
      (phaseWandb b r' csvFs tc config rn de).1.map eraseRank ∧
    (phaseWandb b r csvFs tc config rn de).2 =
      (phaseWandb b r' csvFs tc config rn de).2 := by
  unfold phaseWandb phasePrints
  rcases hw : wandbStage b tc rn with ⟨tW, err⟩
  cases err
  · simp only [hw]
    constructor
    · simp [List.map_append, eraseRank_printRank]
    · trivial
  · simp [hw]

theorem runCore_eraseRank (b : Bool) (r r' : Int) (env : Env)
    (fs : String → Option Value) (csvFs : String → Option (List CsvRow))
    (rn : String) (de : String → Bool) :
    (runCore b r env fs csvFs rn de).1.map eraseRank =
      (runCore b r' env fs csvFs rn de).1.map eraseRank ∧
    (runCore b r env fs csvFs rn de).2 =
      (runCore b r' env fs csvFs rn de).2 := by
  unfold runCore phaseTrain
  rcases hg : get_config env fs with e | config
  · simp [hg, eraseRank_pickRank, eraseRank_setDevice]
  · rcases ht : config.get? "train" with _ | tc
    · simp [hg, ht, eraseRank_pickRank, eraseRank_setDevice]
    · obtain ⟨h1, h2⟩ := phaseWandb_eraseRank b r r' csvFs tc config rn de
      simp [hg, ht, h1, h2, eraseRank_pickRank, eraseRank_setDevice]

/-- C6: the training callback is constructed exactly on the primary
process, from the run name and the training config; on every non-primary
process the callback list is empty, no callback is built and wandb is
never initialized; and the primary test `rank == 0` is the only rank-aware
branching: two runs whose ranks agree on that test have identical traces
and outcomes, up to the raw rank value recorded inside the unbranched
rank-pick, device-selection and rank-print events. -/
theorem callback_rank_gating (rn : String) (tc : Value) (env : Env)
    (fs : String → Option Value) (csvFs : String → Option (List CsvRow))
    (rn' : String) (de : String → Bool) (r r' : Int) :
    trainingCallbacks true rn tc = [{ runName := rn, trainingConfig := tc }] ∧
    trainingCallbacks false rn tc = [] ∧
    (get_rank env ≠ 0 →
      (∀ p q, Event.initWandb p q ∉ (main env fs csvFs rn' de).1) ∧
      (∀ q, Event.buildCallback q ∉ (main env fs csvFs rn' de).1)) ∧
    main env fs csvFs rn' de =
      runCore (get_rank env == 0) (get_rank env) env fs csvFs rn' de ∧
    ((r = 0 ↔ r' = 0) →
      (runCore (r == 0) r env fs csvFs rn' de).1.map eraseRank =
        (runCore (r' == 0) r' env fs csvFs rn' de).1.map eraseRank ∧
      (runCore (r == 0) r env fs csvFs rn' de).2 =
        (runCore (r' == 0) r' env fs csvFs rn' de).2) := by
  refine ⟨rfl, rfl, ?_, rfl, ?_⟩
  · intro h
    constructor
    · intro p q hp
      have hf := main_notMain_primaryFree env fs csvFs rn' de h _ hp
      simp [primaryOnlyEvent] at hf
    · intro q hp
      have hf := main_notMain_primaryFree env fs csvFs rn' de h _ hp
      simp [primaryOnlyEvent] at hf
  · intro hiff
    have hb : (r == 0) = (r' == 0) := by
      by_cases hr : r = 0
      · have hr' : r' = 0 := hiff.mp hr
        simp [hr, hr']
      · have hr' : ¬ r' = 0 := fun hh => hr (hiff.mpr hh)
        simp [hr, hr']
    rw [hb]
    exact runCore_eraseRank (r' == 0) r r' env fs csvFs rn' de

/-- Witness for C6: the rank-1 demo process builds no callback and no
wandb initialization, and the rank-1 and rank-2 runs of the demo config
coincide after erasing the recorded rank values. -/
theorem callback_rank_gating_witness :
    Event.buildCallback "20260101-000000" ∉
      (main envRank1 fsYamlDemo csvFsDemo "20260101-000000" (fun _ => false)).1 ∧
    (runCore ((1 : Int) == 0) 1 envDemo fsYamlDemo csvFsDemo "rn"
        (fun _ => false)).1.map eraseRank =
      (runCore ((2 : Int) == 0) 2 envDemo fsYamlDemo csvFsDemo "rn"
        (fun _ => false)).1.map eraseRank :=
  ⟨((callback_rank_gating "x" Value.null envRank1 fsYamlDemo csvFsDemo
      "20260101-000000" (fun _ => false) 1 2).2.2.1 (by decide)).2
      "20260101-000000",
   ((callback_rank_gating "x" Value.null envDemo fsYamlDemo csvFsDemo "rn"
      (fun _ => false) 1 2).2.2.2.2
      (iff_of_false (by decide) (by decide))).1⟩

end IEAP
